import Mathlib

/-!
Shallow embedding of the systemd DHCPv6 client retransmission engine
(`src/libsystemd-network/sd-dhcp6-client.c`) and of the DNS resource-key
model declared in `src/resolve/resolved-dns-rr.h`, together with
correctness theorems about them.

All machine integers are modelled as `Nat` with explicit reduction
modulo `2 ^ w` where C unsigned overflow can occur (`usec_t` is
`uint64_t`, the IAID is `be32`/`uint32_t`).  External collaborators
(the event loop, udev, container detection, `random_u32`, `siphash24`)
are modelled as explicit environment parameters; each handler returns
the successor client state together with the observer notifications it
delivered and the timers it scheduled, so that side effects are visible
in the result.
-/

namespace DHCP6

/-- Microseconds per second (`USEC_PER_SEC`). -/
def USEC_PER_SEC : Nat := 1000000

/-- Microseconds per millisecond (`USEC_PER_MSEC`). -/
def USEC_PER_MSEC : Nat := 1000

/-- Modulus of 64-bit unsigned arithmetic: `usec_t` (and the siphash
output) are 64-bit unsigned integers. -/
def UINT64_MOD : Nat := 2 ^ 64

/-- Modulus of 32-bit unsigned arithmetic (the IAID is 32 bits). -/
def UINT32_MOD : Nat := 2 ^ 32

/-- Linux `EINVAL` (used through `assert_return(..., -EINVAL)`). -/
def EINVAL : Int := 22

/-- Linux `EBUSY` (returned for a not-yet-initialized device and for a
second `attach_event`). -/
def EBUSY : Int := 16

/-- Linux `ENOMEM` (returned when `udev_new` fails). -/
def ENOMEM : Int := 12

/-- Modelled from the spec: the observer event codes `Stop`,
`ResendExpire` and `RetransmitMax` (the numeric values live in
`dhcp6-protocol.h`, which is absent from the sources; only their
distinctness matters here). -/
def DHCP6_EVENT_STOP : Int := 0

/-- Modelled from the spec: the `ResendExpire` observer event code. -/
def DHCP6_EVENT_RESEND_EXPIRE : Int := 10

/-- Modelled from the spec: the `RetransmitMax` observer event code. -/
def DHCP6_EVENT_RETRANS_MAX : Int := 11

/-- Modelled from the spec: the per-state retransmission parameter
`SOL_TIMEOUT` (RFC 3315 initial Solicit timeout, 1 s); the numeric
value lives in `dhcp6-protocol.h`, which is absent from the sources. -/
def DHCP6_SOL_TIMEOUT : Nat := 1 * USEC_PER_SEC

/-- Modelled from the spec: the per-state retransmission parameter
`SOL_MAX_RT` (RFC 3315 maximum Solicit retransmission time, 120 s);
the numeric value lives in `dhcp6-protocol.h`, which is absent from
the sources. -/
def DHCP6_SOL_MAX_RT : Nat := 120 * USEC_PER_SEC

/-- `enum DHCP6State`: the three client states appearing in the file. -/
inductive DHCP6State where
  | stopped
  | solicitation
  | rs
deriving DecidableEq

/-- `client_timeout_compute_random` (sd-dhcp6-client.c:150-153):

    return val - val / 10 +
            (random_u32() % (2 * USEC_PER_SEC)) * val / 10 / USEC_PER_SEC;

`rand` models the `random_u32()` draw.  All arithmetic is 64-bit
unsigned, so the product and the final sum are reduced modulo `2^64`;
the subtraction cannot underflow because `val / 10 ≤ val`. -/
def client_timeout_compute_random (rand val : Nat) : Nat :=
  (val - val / 10 + (rand % (2 * USEC_PER_SEC)) * val % UINT64_MOD / 10 / USEC_PER_SEC)
    % UINT64_MOD

/-- `struct sd_dhcp6_client` (sd-dhcp6-client.c:40-61).  Pointer-valued
fields are modelled by what the state machine observes of them:
`has_event` is `event != NULL`, `has_cb` is `cb != NULL`, and each
`sd_event_source *` field is `true` exactly when a timer source is
held (non-NULL).  The MAC address is the 6-byte `struct ether_addr`;
`ia_na_id` is the 32-bit IAID inside the `DHCP6IA ia_na` member; the
reference count and the DUID are not needed by any claim and are
omitted. -/
structure Client where
  state : DHCP6State
  has_event : Bool
  event_priority : Int
  index : Int
  mac_addr : List Nat
  ia_na_id : Nat
  ia_na_t1 : Bool
  ia_na_t2 : Bool
  retransmit_time : Nat
  retransmit_count : Nat
  timeout_resend : Bool
  timeout_resend_expire : Bool
  has_cb : Bool
deriving DecidableEq

/-- `client_initialize` (sd-dhcp6-client.c:107-125), named `client_init` here: release the T1/T2
lease timers, clear the retransmission context (time, count, resend
and expire timer sources) and reset the state to `STOPPED`. -/
def client_init (c : Client) : Client :=
  { c with
    ia_na_t1 := false
    ia_na_t2 := false
    retransmit_time := 0
    retransmit_count := 0
    timeout_resend := false
    timeout_resend_expire := false
    state := DHCP6State.stopped }

/-- `client_notify` (sd-dhcp6-client.c:97-105): when a callback is
registered, take a temporary reference, invoke the callback with the
event code and drop the reference; otherwise do nothing.  The result
pairs the client with the list of notifications delivered (the
ref/unref pair is balanced, so the client survives; what the callback
itself does is outside this model). -/
def client_notify (c : Client) (event : Int) : Client × List Int :=
  if c.has_cb then (c, [event]) else (c, [])

/-- `client_stop` (sd-dhcp6-client.c:127-135): notify the observer with
the given event/error code, then reinitialize the client. -/
def client_stop (c : Client) (error : Int) : Client × List Int :=
  let n := client_notify c error
  (client_init n.1, n.2)

/-- `sd_dhcp6_client_stop` (sd-dhcp6-client.c:321-326): stop with the
`Stop` event and return 0 unconditionally. -/
def sd_dhcp6_client_stop (c : Client) : (Client × List Int) × Int :=
  (client_stop c DHCP6_EVENT_STOP, 0)

/-- `client_timeout_resend_expire` (sd-dhcp6-client.c:137-148): the
expire timer unconditionally stops the client with `ResendExpire` and
returns 0. -/
def client_timeout_resend_expire (c : Client) : (Client × List Int) × Int :=
  (client_stop c DHCP6_EVENT_RESEND_EXPIRE, 0)

/-- The two kinds of one-shot timers the client arms through the event
loop (`timeout_resend` and `timeout_resend_expire`). -/
inductive TimerKind where
  | resend
  | expire
deriving DecidableEq

/-- One successful `sd_event_add_time` call as observed through the
scheduler interface: which timer, the absolute expiry time and the
accuracy (slack). -/
structure Sched where
  kind : TimerKind
  time : Nat
  accuracy : Nat
deriving DecidableEq

/-- Environment of one firing of `client_timeout_resend`: the
`random_u32()` draw and the results of the `sd_event_now`,
`sd_event_add_time` and `sd_event_source_set_priority` calls the
handler may make (an `Except.error r` carries the negative errno the
call returned). -/
structure ResendEnv where
  rand : Nat
  now : Except Int Nat
  add_resend : Except Int Unit
  prio_resend : Except Int Unit
  add_expire : Except Int Unit
  prio_expire : Except Int Unit

/-- Result of one timer-handler invocation: the successor client, the
observer notifications delivered, the timers scheduled and the C
return value of the handler. -/
structure StepResult where
  client : Client
  notifications : List Int
  scheduled : List Sched
  ret : Int
deriving DecidableEq

/-- `client_timeout_resend` (sd-dhcp6-client.c:155-247).  The handler
first drops the just-fired timer source; `STOPPED` and `RS` states
return immediately; `SOLICITATION` uses
`{init = SOL_TIMEOUT, max = SOL_MAX_RT, maxCount = 0, maxDuration = 0}`.
Then: max-count cutoff, current time lookup, retransmit-time update,
scheduling of the next resend (accuracy `10 * USEC_PER_MSEC`) and of
the optional expire timer; every failed call jumps to the `error`
label, which funnels the errno through `client_stop`. -/
def client_timeout_resend (env : ResendEnv) (c0 : Client) : StepResult :=
  let c := { c0 with timeout_resend := false }
  match c.state with
  | DHCP6State.stopped => ⟨c, [], [], 0⟩
  | DHCP6State.rs => ⟨c, [], [], 0⟩
  | DHCP6State.solicitation =>
    let init_retransmit_time := DHCP6_SOL_TIMEOUT
    let max_retransmit_time := DHCP6_SOL_MAX_RT
    let max_retransmit_count : Nat := 0
    let max_retransmit_duration : Nat := 0
    if max_retransmit_count ≠ 0 ∧ max_retransmit_count ≤ c.retransmit_count then
      let s := client_stop c DHCP6_EVENT_RETRANS_MAX
      ⟨s.1, s.2, [], 0⟩
    else
      match env.now with
      | Except.error r =>
        let s := client_stop c r
        ⟨s.1, s.2, [], 0⟩
      | Except.ok time_now =>
        let c :=
          if c.retransmit_time = 0 then
            { c with retransmit_time :=
                client_timeout_compute_random env.rand init_retransmit_time }
          else if max_retransmit_time ≠ 0 ∧ max_retransmit_time / 2 < c.retransmit_time then
            { c with retransmit_time :=
                client_timeout_compute_random env.rand max_retransmit_time }
          else
            { c with retransmit_time :=
                (c.retransmit_time +
                  client_timeout_compute_random env.rand c.retransmit_time) % UINT64_MOD }
        match env.add_resend with
        | Except.error r =>
          let s := client_stop c r
          ⟨s.1, s.2, [], 0⟩
        | Except.ok _ =>
          let c := { c with timeout_resend := true }
          let sch : List Sched :=
            [⟨TimerKind.resend, (time_now + c.retransmit_time) % UINT64_MOD,
              10 * USEC_PER_MSEC⟩]
          match env.prio_resend with
          | Except.error r =>
            let s := client_stop c r
            ⟨s.1, s.2, sch, 0⟩
          | Except.ok _ =>
            if max_retransmit_duration ≠ 0 ∧ c.timeout_resend_expire = false then
              match env.add_expire with
              | Except.error r =>
                let s := client_stop c r
                ⟨s.1, s.2, sch, 0⟩
              | Except.ok _ =>
                let c := { c with timeout_resend_expire := true }
                let sch := sch ++
                  [⟨TimerKind.expire, (time_now + max_retransmit_duration) % UINT64_MOD,
                    USEC_PER_SEC⟩]
                match env.prio_expire with
                | Except.error r =>
                  let s := client_stop c r
                  ⟨s.1, s.2, sch, 0⟩
                | Except.ok _ => ⟨c, [], sch, 0⟩
            else ⟨c, [], sch, 0⟩

/-- `(id & 0xffffffff) ^ (id >> 32)` — fold a 64-bit hash into 32 bits
(sd-dhcp6-client.c:287-288). -/
def fold32 (id : Nat) : Nat := (id % UINT32_MOD) ^^^ (id / UINT32_MOD)

/-- Environment of `client_ensure_iaid`: the results of the external
collaborators `detect_container`, `udev_new`,
`udev_device_new_from_device_id` (with the `errno` observed on
failure), `udev_device_get_is_initialized` and `net_get_name`, plus
the keyed hash `siphash24` under `HASH_KEY`, modelled as a function
from the hashed byte string to the 64-bit digest. -/
structure IaidEnv where
  detect_container : Int
  udev_new_ok : Bool
  device_found : Bool
  lookup_errno : Int
  device_initialized : Int
  net_name : Option (List Nat)
  siphash24 : List Nat → Nat

/-- Result of `client_ensure_iaid`: the successor client, the C return
value, and whether the keyed-hash derivation was performed during this
call. -/
structure IaidResult where
  client : Client
  ret : Int
  derived : Bool

/-- `client_ensure_iaid` (sd-dhcp6-client.c:249-291).  An already
nonzero `ia_na.id` returns immediately (the code's is-set criterion is
the test `if (client->ia_na.id)`).  Outside a container the stable
interface name is resolved through udev (failing with `-ENOMEM`,
`-errno` or `-EBUSY`); inside a container the name stays `NULL`.  The
64-bit keyed hash of the name — or of the 6-byte MAC address when no
name is available — is folded into 32 bits and stored. -/
def client_ensure_iaid (env : IaidEnv) (c : Client) : IaidResult :=
  if c.ia_na_id ≠ 0 then ⟨c, 0, false⟩
  else
    let resolved : Except Int (Option (List Nat)) :=
      if env.detect_container ≤ 0 then
        if env.udev_new_ok = false then Except.error (-ENOMEM)
        else if env.device_found = false then Except.error (-env.lookup_errno)
        else if env.device_initialized ≤ 0 then Except.error (-EBUSY)
        else Except.ok env.net_name
      else Except.ok none
    match resolved with
    | Except.error r => ⟨c, r, false⟩
    | Except.ok name =>
      let id :=
        (match name with
         | some nb => env.siphash24 nb
         | none => env.siphash24 c.mac_addr) % UINT64_MOD
      ⟨{ c with ia_na_id := fold32 id }, 0, true⟩

/-- Environment of `client_start`: the `client_ensure_iaid`
collaborators plus the results of the `sd_event_add_time` /
`sd_event_source_set_priority` calls arming the zero-delay resend
timer. -/
structure StartEnv where
  iaid : IaidEnv
  add_resend : Except Int Unit
  prio_resend : Except Int Unit

/-- Result of `client_start`: successor client, timers scheduled, and
the C return value. -/
structure StartResult where
  client : Client
  scheduled : List Sched
  ret : Int

/-- `client_start` (sd-dhcp6-client.c:293-319): checks the
preconditions (`event` attached, `index > 0`), derives the IAID
(propagating failures), enters `SOLICITATION` and arms an immediate
resend timer (absolute time 0, accuracy 0). -/
def client_start (env : StartEnv) (c : Client) : StartResult :=
  if c.has_event = false then ⟨c, [], -EINVAL⟩
  else if c.index ≤ 0 then ⟨c, [], -EINVAL⟩
  else
    let ir := client_ensure_iaid env.iaid c
    if ir.ret < 0 then ⟨ir.client, [], ir.ret⟩
    else
      let c1 := { ir.client with state := DHCP6State.solicitation }
      match env.add_resend with
      | Except.error r => ⟨c1, [], r⟩
      | Except.ok _ =>
        let c2 := { c1 with timeout_resend := true }
        let sch : List Sched := [⟨TimerKind.resend, 0, 0⟩]
        match env.prio_resend with
        | Except.error r => ⟨c2, sch, r⟩
        | Except.ok _ => ⟨c2, sch, 0⟩

/-- `sd_dhcp6_client_start` (sd-dhcp6-client.c:328-341): the public
"(re)start" entry point — checks the preconditions, reinitializes,
then runs `client_start`. -/
def sd_dhcp6_client_start (env : StartEnv) (c : Client) : StartResult :=
  if c.has_event = false then ⟨c, [], -EINVAL⟩
  else if c.index ≤ 0 then ⟨c, [], -EINVAL⟩
  else client_start env (client_init c)

/-- Environment of `sd_dhcp6_client_attach_event`: the result of
`sd_event_default` (consulted only when no explicit event is given). -/
structure AttachEnv where
  default_event : Except Int Unit

/-- Result of `sd_dhcp6_client_attach_event`: successor client and the
C return value. -/
structure AttachResult where
  client : Client
  ret : Int
deriving DecidableEq

/-- `sd_dhcp6_client_attach_event` (sd-dhcp6-client.c:343-362).
`given` tells whether the caller passed an explicit (non-NULL)
`sd_event`.  With an event already attached the call fails with
`-EBUSY`.  Otherwise the explicit event is referenced, or a default
one is obtained — and when `sd_event_default` fails the source code
executes `return 0;` inside the `if (r < 0)` check, leaving the client
without an event and skipping the priority assignment. -/
def sd_dhcp6_client_attach_event (env : AttachEnv) (given : Bool) (priority : Int)
    (c : Client) : AttachResult :=
  if c.has_event then ⟨c, -EBUSY⟩
  else if given then ⟨{ c with has_event := true, event_priority := priority }, 0⟩
  else
    match env.default_event with
    | Except.error _ => ⟨c, 0⟩
    | Except.ok _ => ⟨{ c with has_event := true, event_priority := priority }, 0⟩

/-- A concrete client used as a witness input: no IAID set, event
attached, valid interface index, callback registered. -/
def zeroIdClient : Client :=
  ⟨DHCP6State.stopped, true, 0, 1, [0, 0, 0, 0, 0, 0], 0, false, false, 0, 0, false,
    false, true⟩

/-- A concrete client whose IAID is already set (nonzero). -/
def nonzeroIdClient : Client :=
  ⟨DHCP6State.stopped, true, 0, 1, [0, 0, 0, 0, 0, 0], 5, false, false, 0, 0, false,
    false, true⟩

/-- A concrete client in `SOLICITATION` with a pending resend timer and
a callback registered. -/
def solClient : Client :=
  ⟨DHCP6State.solicitation, true, 0, 1, [0, 0, 0, 0, 0, 0], 7, false, false, 0, 0, true,
    false, true⟩

/-- A concrete client with no event attached and no callback. -/
def noEventClient : Client :=
  ⟨DHCP6State.stopped, false, 0, 1, [0, 0, 0, 0, 0, 0], 0, false, false, 0, 0, false,
    false, false⟩

/-- A concrete `client_ensure_iaid` environment: running inside a
container (so udev is skipped and the MAC fallback is taken) with a
keyed hash constantly 0 — the derived IAID is then structurally
zero. -/
def zeroHashEnv : IaidEnv := ⟨1, true, true, 0, 1, none, fun _ => 0⟩

/-- A concrete `client_ensure_iaid` environment: not in a container,
udev available, device found but not yet fully initialized. -/
def notReadyEnv : IaidEnv := ⟨0, true, true, 0, 0, none, fun _ => 0⟩

/-- A concrete `client_start` environment whose IAID derivation reports
not-ready and whose scheduler calls would succeed. -/
def startEnvNotReady : StartEnv := ⟨notReadyEnv, Except.ok (), Except.ok ()⟩

/-- A concrete `client_timeout_resend` environment in which every
scheduler call succeeds, with draw 0 and current time 0. -/
def okResendEnv : ResendEnv :=
  ⟨0, Except.ok 0, Except.ok (), Except.ok (), Except.ok (), Except.ok ()⟩

end DHCP6

namespace DNS

/-- `struct DnsResourceKey` (resolved-dns-rr.h:64-68): 16-bit record
class, 16-bit record type and the owned name.  (`class` is a Lean
keyword, hence the field name `rr_class`.) -/
structure DnsResourceKey where
  rr_class : Nat
  type : Nat
  name : String
deriving DecidableEq

/-- Modelled from the spec: the DNS-name hash ingredient used by the
resource-key hash (`resolved-dns-rr.c`, which defines
`dns_resource_key_hash_func`, is absent from the sources; the header
only declares it).  The spec allows byte-identity name treatment, so
the name is hashed as its character sequence with a 64-bit fold. -/
def dns_name_hash (s : String) : Nat :=
  s.data.foldl (fun h c => (h * 31 + c.toNat) % DHCP6.UINT64_MOD) 5381

/-- Modelled from the spec: `dns_resource_key_hash_func` (declared at
resolved-dns-rr.h:114; the defining `resolved-dns-rr.c` is absent from
the sources).  Per the spec the hash must cover all three fields of
the key and agree with equality, so the name hash is combined with the
16-bit class and type. -/
def dns_resource_key_hash_func (k : DnsResourceKey) : Nat :=
  ((dns_name_hash k.name * 65536 + k.rr_class) * 65536 + k.type) % DHCP6.UINT64_MOD

/-- Modelled from the spec: `dns_resource_key_compare_func` (declared
at resolved-dns-rr.h:115; the defining `resolved-dns-rr.c` is absent
from the sources).  Per the spec, key identity is the triple
(class, type, name), compared with byte-identity on the name. -/
def dns_resource_key_equal (a b : DnsResourceKey) : Bool :=
  a.rr_class == b.rr_class && a.type == b.type && a.name == b.name

/-- `DNS_CLASS_IN` (resolved-dns-rr.h:35). -/
def DNS_CLASS_IN : Nat := 0x01

/-- `DNS_TYPE_A` (resolved-dns-rr.h:42). -/
def DNS_TYPE_A : Nat := 0x01

/-- `DNS_TYPE_NS` (resolved-dns-rr.h:43). -/
def DNS_TYPE_NS : Nat := 0x02

end DNS

namespace DHCP6

/-- The final sum in `client_timeout_compute_random` never wraps:
the jitter term is below `2^64 / 10^7` while `val - val / 10` leaves
ample headroom. -/
theorem compute_random_no_wrap (rand val : Nat) (hv : val < UINT64_MOD) :
    val - val / 10 + (rand % (2 * USEC_PER_SEC)) * val % UINT64_MOD / 10 / USEC_PER_SEC
      < UINT64_MOD := by
  simp only [USEC_PER_SEC, UINT64_MOD] at *
  omega

/-- The jitter term of `client_timeout_compute_random` is at most
`val / 5` (one fifth of the argument), since the draw is below
`2·10^6` and the divisor chain is `10 · 10^6`. -/
theorem jitter_div_le (w v : Nat) (h : w ≤ 2000000 * v) : w / 10 / 1000000 ≤ v / 5 := by
  have h2 : w / 10 / 1000000 = w / 10000000 := Nat.div_div_eq_div_mul w 10 1000000
  have h3 : w / 10000000 ≤ 2000000 * v / 10000000 := Nat.div_le_div_right h
  have h4 : 2000000 * v / 10000000 = v / 5 := by
    rw [Nat.mul_comm]
    rw [show (10000000 : Nat) = 5 * 2000000 from rfl]
    exact Nat.mul_div_mul_right v 5 (by norm_num)
  omega

/-- C1: `client_timeout_compute_random` returns exactly
`val - val/10 + draw * val / 10 / USEC_PER_SEC` where
`draw = rand % (2·USEC_PER_SEC)` is the uniform draw in
`[0, 2·SECOND)` — the expression is computed in 64-bit arithmetic, and
coincides with the untruncated formula whenever `draw * val` fits in
64 bits — and the result always lies in the interval `[0.9·val, 1.1·val]`
inclusive of boundary rounding: `9·val ≤ 10·result` and
`10·result ≤ 11·val + 9` (i.e. `result ≤ ⌈1.1·val⌉`). -/
theorem C1_compute_random_formula_and_range (rand val : Nat) (hv : val < UINT64_MOD) :
    ((rand % (2 * USEC_PER_SEC)) * val < UINT64_MOD →
        client_timeout_compute_random rand val =
          val - val / 10 + (rand % (2 * USEC_PER_SEC)) * val / 10 / USEC_PER_SEC) ∧
      9 * val ≤ 10 * client_timeout_compute_random rand val ∧
      10 * client_timeout_compute_random rand val ≤ 11 * val + 9 := by
  have hdraw : rand % (2 * USEC_PER_SEC) ≤ 2000000 :=
    le_of_lt (lt_of_lt_of_le (Nat.mod_lt rand (by simp [USEC_PER_SEC]))
      (by simp [USEC_PER_SEC]))
  have hprod : (rand % (2 * USEC_PER_SEC)) * val ≤ 2000000 * val :=
    Nat.mul_le_mul_right val hdraw
  have hj := jitter_div_le ((rand % (2 * USEC_PER_SEC)) * val % UINT64_MOD) val
    (le_trans (Nat.mod_le _ _) hprod)
  have hnw := compute_random_no_wrap rand val hv
  have hmod : client_timeout_compute_random rand val =
      val - val / 10 + (rand % (2 * USEC_PER_SEC)) * val % UINT64_MOD / 10 / USEC_PER_SEC := by
    simp only [client_timeout_compute_random]
    exact Nat.mod_eq_of_lt hnw
  rw [hmod]
  simp only [USEC_PER_SEC, UINT64_MOD] at *
  omega

/-- Witness for C1 at `rand = 0`, `val = 10`. -/
theorem C1_compute_random_formula_and_range_witness :
    (10 : Nat) < UINT64_MOD ∧
      (((0 % (2 * USEC_PER_SEC)) * 10 < UINT64_MOD →
          client_timeout_compute_random 0 10 =
            10 - 10 / 10 + (0 % (2 * USEC_PER_SEC)) * 10 / 10 / USEC_PER_SEC) ∧
        9 * 10 ≤ 10 * client_timeout_compute_random 0 10 ∧
        10 * client_timeout_compute_random 0 10 ≤ 11 * 10 + 9) :=
  ⟨by norm_num [UINT64_MOD],
    C1_compute_random_formula_and_range 0 10 (by norm_num [UINT64_MOD])⟩

/-- C2 counterexample: in an environment where the keyed hash folds to
a structurally zero IAID, a successful first `client_ensure_iaid` call
stores 0 and a second call performs the derivation again — the code's
is-set criterion is `if (client->ia_na.id)`, not an explicit flag, so
the claim "a second call after a successful first call performs no
derivation" fails. -/
theorem C2_counterexample_zero_iaid_rederived :
    (client_ensure_iaid zeroHashEnv zeroIdClient).ret = 0 ∧
    (client_ensure_iaid zeroHashEnv zeroIdClient).derived = true ∧
    (client_ensure_iaid zeroHashEnv
        ((client_ensure_iaid zeroHashEnv zeroIdClient).client)).derived = true := by
  refine ⟨rfl, rfl, rfl⟩

/-- C2 (amended): the IAID is computed lazily and cached, with the
is-set decision made by the test `id != 0`: whenever the stored IAID
is nonzero, `client_ensure_iaid` returns 0, leaves the client
unchanged and performs no derivation.  (A structurally zero derived
IAID is treated as unset and is re-derived on the next call.) -/
theorem C2_amended_nonzero_iaid_cached (env : IaidEnv) (c : Client)
    (h : c.ia_na_id ≠ 0) :
    (client_ensure_iaid env c).client = c ∧
    (client_ensure_iaid env c).ret = 0 ∧
    (client_ensure_iaid env c).derived = false := by
  simp [client_ensure_iaid, h]

/-- Witness for the amended C2 at a client whose IAID is 5. -/
theorem C2_amended_nonzero_iaid_cached_witness :
    nonzeroIdClient.ia_na_id ≠ 0 ∧
    ((client_ensure_iaid zeroHashEnv nonzeroIdClient).client = nonzeroIdClient ∧
      (client_ensure_iaid zeroHashEnv nonzeroIdClient).ret = 0 ∧
      (client_ensure_iaid zeroHashEnv nonzeroIdClient).derived = false) :=
  ⟨by decide, C2_amended_nonzero_iaid_cached zeroHashEnv nonzeroIdClient (by decide)⟩

/-- C3: for a client whose IAID is not yet set, `client_ensure_iaid`
inside a container (isolated environment) skips name resolution and
hashes the MAC address, and outside a container with udev available
and the device initialized it hashes the resolved stable name when one
is available, falling back to the MAC address otherwise; the stored
IAID is the 64-bit digest folded as `(id & 0xffffffff) ^ (id >> 32)`,
and the operation reports success. -/
theorem C3_iaid_derivation (env : IaidEnv) (c : Client) (h : c.ia_na_id = 0) :
    (0 < env.detect_container →
        client_ensure_iaid env c =
          ⟨{ c with ia_na_id := fold32 (env.siphash24 c.mac_addr % UINT64_MOD) },
            0, true⟩) ∧
    (env.detect_container ≤ 0 → env.udev_new_ok = true → env.device_found = true →
      0 < env.device_initialized →
        client_ensure_iaid env c =
          ⟨{ c with ia_na_id :=
              fold32 ((match env.net_name with
                       | some nb => env.siphash24 nb
                       | none => env.siphash24 c.mac_addr) % UINT64_MOD) },
            0, true⟩) := by
  constructor
  · intro hdet
    have hd : ¬ env.detect_container ≤ 0 := by omega
    simp [client_ensure_iaid, h, hd]
  · intro h1 h2 h3 h4
    have hd : ¬ env.device_initialized ≤ 0 := by omega
    simp [client_ensure_iaid, h, h1, h2, h3, hd]

/-- Witness for C3 at the container environment with zero hash. -/
theorem C3_iaid_derivation_witness :
    zeroIdClient.ia_na_id = 0 ∧
    ((0 < zeroHashEnv.detect_container →
        client_ensure_iaid zeroHashEnv zeroIdClient =
          ⟨{ zeroIdClient with
              ia_na_id := fold32 (zeroHashEnv.siphash24 zeroIdClient.mac_addr % UINT64_MOD) },
            0, true⟩) ∧
      (zeroHashEnv.detect_container ≤ 0 → zeroHashEnv.udev_new_ok = true →
        zeroHashEnv.device_found = true → 0 < zeroHashEnv.device_initialized →
          client_ensure_iaid zeroHashEnv zeroIdClient =
            ⟨{ zeroIdClient with
                ia_na_id := fold32 ((match zeroHashEnv.net_name with
                  | some nb => zeroHashEnv.siphash24 nb
                  | none => zeroHashEnv.siphash24 zeroIdClient.mac_addr) % UINT64_MOD) },
              0, true⟩)) :=
  ⟨rfl, C3_iaid_derivation zeroHashEnv zeroIdClient rfl⟩

/-- C4 counterexample: a firing in `SOLICITATION` whose scheduler calls
all succeed reaches the scheduling step (a resend timer is scheduled),
yet `retransmit_count` is not incremented — nothing in
`client_timeout_resend` modifies it. -/
theorem C4_counterexample_count_not_incremented :
    (client_timeout_resend okResendEnv solClient).scheduled ≠ [] ∧
    (client_timeout_resend okResendEnv solClient).client.retransmit_count ≠
      solClient.retransmit_count + 1 := by
  refine ⟨by decide, by decide⟩

/-- C4 (amended): on every firing of the resend timer in state
`SOLICITATION` in which the current-time lookup and the scheduler
calls succeed, exactly one next resend is scheduled, at
`now + retransmit_time` (the just-updated value) with the fixed
accuracy `10 * USEC_PER_MSEC`, and `retransmit_count` is left
unchanged (the code never increments it). -/
theorem C4_amended_resend_scheduling (env : ResendEnv) (c : Client) (t : Nat)
    (hs : c.state = DHCP6State.solicitation)
    (hn : env.now = Except.ok t)
    (ha : env.add_resend = Except.ok ())
    (hp : env.prio_resend = Except.ok ()) :
    (client_timeout_resend env c).scheduled =
      [⟨TimerKind.resend,
        (t + (client_timeout_resend env c).client.retransmit_time) % UINT64_MOD,
        10 * USEC_PER_MSEC⟩] ∧
    (client_timeout_resend env c).client.retransmit_count = c.retransmit_count := by
  obtain ⟨st, hev, prio, idx, mac, iaid, t1, t2, rt, rc, tr, tre, cb⟩ := c
  obtain ⟨rand, now, addr, prior, adde, prioe⟩ := env
  simp only at hs hn ha hp
  subst hs hn ha hp
  simp only [client_timeout_resend]
  split
  · next h => exact absurd h (by simp)
  · split
    · simp
    · split <;> simp

/-- Witness for the amended C4 at the all-successful environment. -/
theorem C4_amended_resend_scheduling_witness :
    solClient.state = DHCP6State.solicitation ∧
    okResendEnv.now = Except.ok 0 ∧
    okResendEnv.add_resend = Except.ok () ∧
    okResendEnv.prio_resend = Except.ok () ∧
    ((client_timeout_resend okResendEnv solClient).scheduled =
      [⟨TimerKind.resend,
        (0 + (client_timeout_resend okResendEnv solClient).client.retransmit_time)
          % UINT64_MOD,
        10 * USEC_PER_MSEC⟩] ∧
      (client_timeout_resend okResendEnv solClient).client.retransmit_count =
        solClient.retransmit_count) :=
  ⟨rfl, rfl, rfl, rfl,
    C4_amended_resend_scheduling okResendEnv solClient 0 rfl rfl rfl rfl⟩

/-- C5: on every resend-timer firing in state `SOLICITATION` that is
not cut off (no cutoff exists: `maxCount = 0`) and in which the
current-time lookup and scheduler calls succeed, `retransmit_time` is
updated from its previous value `rt` to: `computeJitteredBackoff(SOL_TIMEOUT)`
when `rt = 0`; `computeJitteredBackoff(SOL_MAX_RT)` when `SOL_MAX_RT`
is nonzero and `rt > SOL_MAX_RT / 2`; and
`rt + computeJitteredBackoff(rt)` (64-bit) otherwise. -/
theorem C5_retransmit_time_update (env : ResendEnv) (c : Client) (t : Nat)
    (hs : c.state = DHCP6State.solicitation)
    (hn : env.now = Except.ok t)
    (ha : env.add_resend = Except.ok ())
    (hp : env.prio_resend = Except.ok ()) :
    (client_timeout_resend env c).client.retransmit_time =
      (if c.retransmit_time = 0 then
        client_timeout_compute_random env.rand DHCP6_SOL_TIMEOUT
      else if DHCP6_SOL_MAX_RT ≠ 0 ∧ DHCP6_SOL_MAX_RT / 2 < c.retransmit_time then
        client_timeout_compute_random env.rand DHCP6_SOL_MAX_RT
      else
        (c.retransmit_time + client_timeout_compute_random env.rand c.retransmit_time)
          % UINT64_MOD) := by
  obtain ⟨st, hev, prio, idx, mac, iaid, t1, t2, rt, rc, tr, tre, cb⟩ := c
  obtain ⟨rand, now, addr, prior, adde, prioe⟩ := env
  simp only at hs hn ha hp
  subst hs hn ha hp
  simp only [client_timeout_resend]
  split
  · next h => exact absurd h (by simp)
  · split
    · simp_all
    · split <;> simp_all

/-- Witness for C5 at the all-successful environment (previous
`retransmit_time` is 0, so the first branch applies). -/
theorem C5_retransmit_time_update_witness :
    solClient.state = DHCP6State.solicitation ∧
    okResendEnv.now = Except.ok 0 ∧
    okResendEnv.add_resend = Except.ok () ∧
    okResendEnv.prio_resend = Except.ok () ∧
    (client_timeout_resend okResendEnv solClient).client.retransmit_time =
      (if solClient.retransmit_time = 0 then
        client_timeout_compute_random okResendEnv.rand DHCP6_SOL_TIMEOUT
      else if DHCP6_SOL_MAX_RT ≠ 0 ∧ DHCP6_SOL_MAX_RT / 2 < solClient.retransmit_time then
        client_timeout_compute_random okResendEnv.rand DHCP6_SOL_MAX_RT
      else
        (solClient.retransmit_time +
          client_timeout_compute_random okResendEnv.rand solClient.retransmit_time)
          % UINT64_MOD) :=
  ⟨rfl, rfl, rfl, rfl,
    C5_retransmit_time_update okResendEnv solClient 0 rfl rfl rfl rfl⟩

/-- Any failing `client_ensure_iaid` run leaves the client unchanged
and performs no derivation (every error return in the source precedes
the hash computation and the store). -/
theorem client_ensure_iaid_error_no_change (env : IaidEnv) (c : Client) :
    (client_ensure_iaid env c).ret = 0 ∨
    ((client_ensure_iaid env c).client = c ∧
      (client_ensure_iaid env c).derived = false) := by
  by_cases h0 : c.ia_na_id ≠ 0
  · left
    simp [client_ensure_iaid, h0]
  · by_cases h1 : env.detect_container ≤ 0
    · by_cases h2 : env.udev_new_ok = false
      · right
        simp [client_ensure_iaid, h0, h1, h2]
      · by_cases h3 : env.device_found = false
        · right
          simp [client_ensure_iaid, h0, h1, h2, h3]
        · by_cases h4 : env.device_initialized ≤ 0
          · right
            simp [client_ensure_iaid, h0, h1, h2, h3, h4]
          · left
            simp [client_ensure_iaid, h0, h1, h2, h3, h4]
    · left
      simp [client_ensure_iaid, h0, h1]

/-- C6: (a) with the client outside a container, udev available and the
device found but not yet fully initialized, `client_ensure_iaid` fails
with `-EBUSY` (not-ready, retryable), leaving the client unchanged and
performing no derivation; (b) whenever the IAID derivation inside
`client_start` fails, `client_start` returns that same error with the
client completely unchanged and no timer scheduled. -/
theorem C6_notready_and_start_propagation (env : StartEnv) (c : Client)
    (hev : c.has_event = true) (hidx : 0 < c.index) :
    (c.ia_na_id = 0 → env.iaid.detect_container ≤ 0 → env.iaid.udev_new_ok = true →
      env.iaid.device_found = true → env.iaid.device_initialized ≤ 0 →
        client_ensure_iaid env.iaid c = ⟨c, -EBUSY, false⟩) ∧
    ((client_ensure_iaid env.iaid c).ret < 0 →
        client_start env c = ⟨c, [], (client_ensure_iaid env.iaid c).ret⟩) := by
  constructor
  · intro h0 h1 h2 h3 h4
    have h0' : ¬ c.ia_na_id ≠ 0 := by simp [h0]
    simp [client_ensure_iaid, h0', h1, h2, h3, h4]
  · intro herr
    have hidx' : ¬ c.index ≤ 0 := by omega
    rcases client_ensure_iaid_error_no_change env.iaid c with h0 | ⟨hc, _⟩
    · rw [h0] at herr
      omega
    · simp [client_start, hev, hidx', herr, hc]

/-- Witness for C6 at the not-ready environment and a client with no
IAID set, an attached event and interface index 1. -/
theorem C6_notready_and_start_propagation_witness :
    zeroIdClient.has_event = true ∧ 0 < zeroIdClient.index ∧
    ((zeroIdClient.ia_na_id = 0 → startEnvNotReady.iaid.detect_container ≤ 0 →
        startEnvNotReady.iaid.udev_new_ok = true →
        startEnvNotReady.iaid.device_found = true →
        startEnvNotReady.iaid.device_initialized ≤ 0 →
          client_ensure_iaid startEnvNotReady.iaid zeroIdClient =
            ⟨zeroIdClient, -EBUSY, false⟩) ∧
      ((client_ensure_iaid startEnvNotReady.iaid zeroIdClient).ret < 0 →
          client_start startEnvNotReady zeroIdClient =
            ⟨zeroIdClient, [],
              (client_ensure_iaid startEnvNotReady.iaid zeroIdClient).ret⟩)) :=
  ⟨rfl, by decide,
    C6_notready_and_start_propagation startEnvNotReady zeroIdClient rfl (by decide)⟩

/-- C7 (code bug): when no explicit event is given and obtaining the
default event fails, `sd_dhcp6_client_attach_event` executes
`return 0;` inside the `if (r < 0)` check — it reports success while
the client ends up with no scheduler attached, contradicting the
spec's "never silently swallows a failure".  (The `-EBUSY`
already-attached precondition itself behaves as specified.) -/
theorem C7_attach_event_swallows_default_failure :
    sd_dhcp6_client_attach_event ⟨Except.error (-ENOMEM)⟩ false 5 noEventClient =
      ⟨noEventClient, 0⟩ ∧
    noEventClient.has_event = false ∧
    sd_dhcp6_client_attach_event ⟨Except.ok ()⟩ true 3 nonzeroIdClient =
      ⟨nonzeroIdClient, -EBUSY⟩ :=
  ⟨rfl, rfl, rfl⟩

/-- C8: for every client with a registered callback, `stop()` returns
0, delivers exactly one `Stop` notification, and leaves the client in
`STOPPED` with all four timers released and the retransmission context
cleared; a second `stop()` produces the same final state
(idempotence). -/
theorem C8_stop_notifies_once_and_reinitializes (c : Client) (h : c.has_cb = true) :
    (sd_dhcp6_client_stop c).2 = 0 ∧
    (sd_dhcp6_client_stop c).1.2 = [DHCP6_EVENT_STOP] ∧
    (sd_dhcp6_client_stop c).1.1.state = DHCP6State.stopped ∧
    (sd_dhcp6_client_stop c).1.1.timeout_resend = false ∧
    (sd_dhcp6_client_stop c).1.1.timeout_resend_expire = false ∧
    (sd_dhcp6_client_stop c).1.1.ia_na_t1 = false ∧
    (sd_dhcp6_client_stop c).1.1.ia_na_t2 = false ∧
    (sd_dhcp6_client_stop c).1.1.retransmit_time = 0 ∧
    (sd_dhcp6_client_stop c).1.1.retransmit_count = 0 ∧
    (sd_dhcp6_client_stop (sd_dhcp6_client_stop c).1.1).1.1 =
      (sd_dhcp6_client_stop c).1.1 := by
  simp [sd_dhcp6_client_stop, client_stop, client_notify, client_init, h]

/-- Witness for C8 at the concrete soliciting client. -/
theorem C8_stop_notifies_once_and_reinitializes_witness :
    solClient.has_cb = true ∧
    ((sd_dhcp6_client_stop solClient).2 = 0 ∧
      (sd_dhcp6_client_stop solClient).1.2 = [DHCP6_EVENT_STOP] ∧
      (sd_dhcp6_client_stop solClient).1.1.state = DHCP6State.stopped ∧
      (sd_dhcp6_client_stop solClient).1.1.timeout_resend = false ∧
      (sd_dhcp6_client_stop solClient).1.1.timeout_resend_expire = false ∧
      (sd_dhcp6_client_stop solClient).1.1.ia_na_t1 = false ∧
      (sd_dhcp6_client_stop solClient).1.1.ia_na_t2 = false ∧
      (sd_dhcp6_client_stop solClient).1.1.retransmit_time = 0 ∧
      (sd_dhcp6_client_stop solClient).1.1.retransmit_count = 0 ∧
      (sd_dhcp6_client_stop (sd_dhcp6_client_stop solClient).1.1).1.1 =
        (sd_dhcp6_client_stop solClient).1.1) :=
  ⟨rfl, C8_stop_notifies_once_and_reinitializes solClient rfl⟩

/-- C10: for every client with no callback registered and every
terminal event/error code, `client_stop` still reinitializes the
client — state `STOPPED`, all four timers released, retransmission
context cleared — while delivering no notification at all. -/
theorem C10_no_callback_still_reinitializes (c : Client) (e : Int)
    (h : c.has_cb = false) :
    client_stop c e = (client_init c, []) ∧
    (client_stop c e).1.state = DHCP6State.stopped ∧
    (client_stop c e).1.timeout_resend = false ∧
    (client_stop c e).1.timeout_resend_expire = false ∧
    (client_stop c e).1.ia_na_t1 = false ∧
    (client_stop c e).1.ia_na_t2 = false ∧
    (client_stop c e).1.retransmit_time = 0 ∧
    (client_stop c e).1.retransmit_count = 0 := by
  simp [client_stop, client_notify, client_init, h]

/-- Witness for C10 at the callback-free client and the `ResendExpire`
event. -/
theorem C10_no_callback_still_reinitializes_witness :
    noEventClient.has_cb = false ∧
    (client_stop noEventClient DHCP6_EVENT_RESEND_EXPIRE =
      (client_init noEventClient, []) ∧
      (client_stop noEventClient DHCP6_EVENT_RESEND_EXPIRE).1.state =
        DHCP6State.stopped ∧
      (client_stop noEventClient DHCP6_EVENT_RESEND_EXPIRE).1.timeout_resend = false ∧
      (client_stop noEventClient DHCP6_EVENT_RESEND_EXPIRE).1.timeout_resend_expire =
        false ∧
      (client_stop noEventClient DHCP6_EVENT_RESEND_EXPIRE).1.ia_na_t1 = false ∧
      (client_stop noEventClient DHCP6_EVENT_RESEND_EXPIRE).1.ia_na_t2 = false ∧
      (client_stop noEventClient DHCP6_EVENT_RESEND_EXPIRE).1.retransmit_time = 0 ∧
      (client_stop noEventClient DHCP6_EVENT_RESEND_EXPIRE).1.retransmit_count = 0) :=
  ⟨rfl, C10_no_callback_still_reinitializes noEventClient DHCP6_EVENT_RESEND_EXPIRE rfl⟩

end DHCP6

namespace DNS

/-- C9: resource-key hashing and equality agree — equal keys hash
equal — and both functions are defined over all three fields of the
key: equality holds exactly when class, type and name all coincide,
and for each single field there are keys differing only in that field
that compare unequal and hash differently. -/
theorem C9_key_hash_equal_agree :
    (∀ a b : DnsResourceKey, dns_resource_key_equal a b = true →
        dns_resource_key_hash_func a = dns_resource_key_hash_func b) ∧
    (∀ a b : DnsResourceKey, dns_resource_key_equal a b = true ↔ a = b) ∧
    (∃ a b : DnsResourceKey, a.type = b.type ∧ a.name = b.name ∧
        dns_resource_key_equal a b = false ∧
        dns_resource_key_hash_func a ≠ dns_resource_key_hash_func b) ∧
    (∃ a b : DnsResourceKey, a.rr_class = b.rr_class ∧ a.name = b.name ∧
        dns_resource_key_equal a b = false ∧
        dns_resource_key_hash_func a ≠ dns_resource_key_hash_func b) ∧
    (∃ a b : DnsResourceKey, a.rr_class = b.rr_class ∧ a.type = b.type ∧
        dns_resource_key_equal a b = false ∧
        dns_resource_key_hash_func a ≠ dns_resource_key_hash_func b) := by
  have hiff : ∀ a b : DnsResourceKey, dns_resource_key_equal a b = true ↔ a = b := by
    intro a b
    cases a
    cases b
    simp [dns_resource_key_equal, DnsResourceKey.mk.injEq, and_assoc]
  refine ⟨?_, hiff, ?_, ?_, ?_⟩
  · intro a b h
    rw [(hiff a b).mp h]
  · exact ⟨⟨DNS_CLASS_IN, DNS_TYPE_A, "a"⟩, ⟨0xFF, DNS_TYPE_A, "a"⟩,
      rfl, rfl, by decide, by decide⟩
  · exact ⟨⟨DNS_CLASS_IN, DNS_TYPE_A, "a"⟩, ⟨DNS_CLASS_IN, DNS_TYPE_NS, "a"⟩,
      rfl, rfl, by decide, by decide⟩
  · exact ⟨⟨DNS_CLASS_IN, DNS_TYPE_A, "a"⟩, ⟨DNS_CLASS_IN, DNS_TYPE_A, "b"⟩,
      rfl, rfl, by decide, by decide⟩

/-- Witness for C9: two separately constructed identical IN/A keys for
"example.com" compare equal and hash equal. -/
theorem C9_key_hash_equal_agree_witness :
    dns_resource_key_equal ⟨DNS_CLASS_IN, DNS_TYPE_A, "example.com"⟩
      ⟨DNS_CLASS_IN, DNS_TYPE_A, "example.com"⟩ = true ∧
    dns_resource_key_hash_func ⟨DNS_CLASS_IN, DNS_TYPE_A, "example.com"⟩ =
      dns_resource_key_hash_func ⟨DNS_CLASS_IN, DNS_TYPE_A, "example.com"⟩ :=
  ⟨by decide, C9_key_hash_equal_agree.1 ⟨DNS_CLASS_IN, DNS_TYPE_A, "example.com"⟩
    ⟨DNS_CLASS_IN, DNS_TYPE_A, "example.com"⟩ (by decide)⟩

end DNS
